import Mathlib

/-!
Verification of the places-search tool (`src/main.py`).

The core under specification is the search pipeline:

* `search_places` — issues the HTTP request and returns a
  `(result, error)` pair (success xor failure);
* `process_places` — normalizes each raw place record into a uniform
  row shape with literal defaults for missing fields;
* the ranking step `processed_places.sort(key=lambda x: x['Has Website'] == 'Yes')`
  — Python's `list.sort` is a stable sort, modelled here by
  `List.mergeSort` on the same boolean key.

All definitions are shallow embeddings of the Python source; JSON
records become structures with `Option` fields for the optional keys.
-/

/-- The `displayName` sub-object of a raw place: `{text: string}`,
where the `text` key itself may be absent. -/
structure DisplayName where
  text : Option String
deriving DecidableEq, Repr

/-- A raw place record as delivered by the places API under the
field mask `places.displayName,places.formattedAddress,places.priceLevel,places.websiteUri`.
Every field may be absent (`none`). -/
structure RawPlace where
  displayName : Option DisplayName
  formattedAddress : Option String
  priceLevel : Option String
  websiteUri : Option String
deriving DecidableEq, Repr

/-- The normalized row built by `process_places` (src/main.py:78-84).
The Python dict keys are `Name`, `Address`, `Price Level`,
`Has Website` (holding the literal strings `"Yes"`/`"No"`) and
`Website`. Every field is always present. -/
structure NormalizedPlace where
  name : String
  address : String
  priceLevel : String
  hasWebsite : String
  website : String
deriving DecidableEq, Repr

/-- Python truthiness test of src/main.py:76,
`'websiteUri' in place and place['websiteUri']`:
the key exists and its value is truthy, i.e. a non-empty string. -/
def has_website (place : RawPlace) : Bool :=
  match place.websiteUri with
  | some s => !(s == "")
  | none => false

/-- The body of the loop in `process_places` (src/main.py:78-84):
build one normalized row from one raw place, with literal defaults
for missing optional fields. -/
def process_place (place : RawPlace) : NormalizedPlace :=
  let hw := has_website place
  { name :=
      match place.displayName with
      | some d => d.text.getD "Unknown"
      | none => "Unknown"
    address := place.formattedAddress.getD "N/A"
    priceLevel := place.priceLevel.getD "N/A"
    hasWebsite := if hw then "Yes" else "No"
    website := if hw then (place.websiteUri.getD "N/A") else "N/A" }

/-- `process_places` (src/main.py:70-87): the loop appends one
processed row per input place, i.e. a map. -/
def process_places (places : List RawPlace) : List NormalizedPlace :=
  places.map process_place

/-- The sort key of src/main.py:151: `lambda x: x['Has Website'] == 'Yes'`. -/
def sortKey (x : NormalizedPlace) : Bool :=
  x.hasWebsite == "Yes"

/-- The comparison induced by sorting on a boolean key ascending
(`False < True`), as Python's `list.sort(key=...)` does. -/
def keyLE (a b : NormalizedPlace) : Bool :=
  !sortKey a || sortKey b

/-- `processed_places.sort(key=lambda x: x['Has Website'] == 'Yes')`
(src/main.py:151). Python's `list.sort` is a stable sort; `List.mergeSort`
is the stable sort of the Lean library. -/
def rank_places (l : List NormalizedPlace) : List NormalizedPlace :=
  l.mergeSort keyLE

/-- The whole normalizer/ranker pipeline applied to a search response:
`process_places` followed by the stable sort of src/main.py:151. -/
def normalize_and_rank (places : List RawPlace) : List NormalizedPlace :=
  rank_places (process_places places)

/-- A parsed success body: a JSON object optionally containing a
`places` key with a list of raw place records. -/
structure SearchResult where
  places : Option (List RawPlace)
deriving DecidableEq, Repr

/-- An HTTP response as observed by `search_places`: its status code,
its raw body text, and the parse of that body. -/
structure HttpResponse where
  status_code : Nat
  text : String
  json : SearchResult
deriving DecidableEq, Repr

/-- What the one outbound `requests.post` call can come back with:
either an HTTP response, or a transport-level fault raised as a
`requests.exceptions.RequestException` carrying a message. -/
inductive HttpOutcome where
  | response (r : HttpResponse)
  | requestException (msg : String)
deriving DecidableEq, Repr

/-- The error taxonomy of the spec (§7): a failed request carrying
status code and raw body, or a transport fault carrying a message. -/
inductive SearchError where
  | RequestFailed (statusCode : Nat) (body : String)
  | TransportError (message : String)
deriving DecidableEq, Repr

/-- The exact error strings `search_places` builds
(src/main.py:64 and src/main.py:68) from each error. -/
def renderSearchError : SearchError → String
  | .RequestFailed code body =>
      "Request failed with status code: " ++ toString code ++ "\nError: " ++ body
  | .TransportError msg => "An error occurred: " ++ msg

/-- `search_places` (src/main.py:57-68) as a function of the outcome of
its one network call: status 200 returns `(parsed json, None)`; any
other status returns `(None, error message with status and body)`;
a `RequestException` returns `(None, "An error occurred: ...")`. -/
def search_places (outcome : HttpOutcome) : Option SearchResult × Option String :=
  match outcome with
  | .response r =>
      if r.status_code == 200 then
        (some r.json, none)
      else
        (none, some (renderSearchError (.RequestFailed r.status_code r.text)))
  | .requestException e =>
      (none, some (renderSearchError (.TransportError e)))

/-- What the click handler (src/main.py:130-137) decides to do:
show a validation error, or invoke `search_places`. -/
inductive UiOutcome where
  | validationError (msg : String)
  | invokeSearch (query : String) (key : String)
deriving DecidableEq, Repr

/-- The caller-side validation of src/main.py:130-137: an empty query
(`not search_query`) or an empty key (`not api_key`) shows an error
and never reaches `search_places`. -/
def search_clicked_handler (search_query : String) (api_key : String) : UiOutcome :=
  if search_query == "" then
    .validationError "Please enter a search query"
  else if api_key == "" then
    .validationError "Please provide your Google Places API key in the settings above"
  else
    .invokeSearch search_query api_key

/-- The raw place of Scenario A:
`{displayName:{text:"Cafe A"}, formattedAddress:"1 Main St"}`. -/
def scenarioA_raw : RawPlace :=
  { displayName := some { text := some "Cafe A" }
    formattedAddress := some "1 Main St"
    priceLevel := none
    websiteUri := none }

/-- The normalized row Scenario A expects. -/
def scenarioA_row : NormalizedPlace :=
  { name := "Cafe A"
    address := "1 Main St"
    priceLevel := "N/A"
    hasWebsite := "No"
    website := "N/A" }

/-- A concrete raw place that has a website. -/
def wRaw : RawPlace :=
  { displayName := some { text := some "Biz" }
    formattedAddress := some "2 Side St"
    priceLevel := none
    websiteUri := some "http://x.com" }

/-- A concrete raw place with every optional field absent. -/
def blankRaw : RawPlace :=
  { displayName := none
    formattedAddress := none
    priceLevel := none
    websiteUri := none }

/-- A concrete search response: one place with a website, then one
without (the shape of Scenario B). -/
def wPlacesB : List RawPlace :=
  [wRaw, blankRaw]

/-- A concrete response whose status 204 lies in the HTTP success
range yet differs from 200. -/
def resp204 : HttpResponse :=
  { status_code := 204, text := "", json := { places := some [] } }

/-- A concrete 200 response whose parsed body lacks the `places` key. -/
def resp200 : HttpResponse :=
  { status_code := 200, text := "", json := { places := none } }

/-- The response of Scenario D: status 403, body `"forbidden"`. -/
def resp403 : HttpResponse :=
  { status_code := 403, text := "forbidden", json := { places := none } }

/-- The boolean-key comparison is transitive. -/
theorem keyLE_trans : ∀ a b c : NormalizedPlace, keyLE a b → keyLE b c → keyLE a c := by
  intro a b c
  unfold keyLE
  cases h1 : sortKey a <;> cases h2 : sortKey b <;> cases h3 : sortKey c <;> decide

/-- The boolean-key comparison is total. -/
theorem keyLE_total : ∀ a b : NormalizedPlace, keyLE a b || keyLE b a := by
  intro a b
  unfold keyLE
  cases h1 : sortKey a <;> cases h2 : sortKey b <;> decide

/-- Stability of the ranking sort, filter form: any predicate that
pins the sort key to one value selects the same subsequence before
and after sorting. -/
theorem rank_filter_eq (p : NormalizedPlace → Bool) (k : Bool)
    (hk : ∀ x, p x = true → sortKey x = k) (l : List NormalizedPlace) :
    (rank_places l).filter p = l.filter p := by
  have hpair : (l.filter p).Pairwise (fun a b : NormalizedPlace => keyLE a b = true) := by
    apply List.pairwise_of_forall_mem_list
    intro a ha b hb
    have hka := hk a (List.mem_filter.mp ha).2
    have hkb := hk b (List.mem_filter.mp hb).2
    unfold keyLE
    rw [hka, hkb]
    cases k <;> decide
  have hsub : (l.filter p).Sublist (rank_places l) :=
    List.sublist_mergeSort keyLE_trans keyLE_total hpair (List.filter_sublist l)
  have hsub2 : ((l.filter p).filter p).Sublist ((rank_places l).filter p) := hsub.filter p
  have hself : (l.filter p).filter p = l.filter p := by
    simp [List.filter_filter]
  rw [hself] at hsub2
  have hperm : ((rank_places l).filter p).Perm (l.filter p) :=
    (List.mergeSort_perm l keyLE).filter p
  exact (hsub2.eq_of_length hperm.length_eq.symm).symm

/-- A list that is pairwise ordered by the boolean key is exactly its
false-key elements followed by its true-key elements. -/
theorem pairwise_partition (out : List NormalizedPlace)
    (h : out.Pairwise (fun a b : NormalizedPlace => keyLE a b = true)) :
    out = out.filter (fun x => !sortKey x) ++ out.filter (fun x => sortKey x) := by
  induction out with
  | nil => rfl
  | cons a t ih =>
    rw [List.pairwise_cons] at h
    obtain ⟨hall, htp⟩ := h
    have ht := ih htp
    cases hka : sortKey a
    · simp only [List.filter_cons, hka, Bool.not_false, if_true, Bool.false_eq_true,
        if_false, List.cons_append]
      rw [← ht]
    · have htrue : ∀ b ∈ t, sortKey b = true := by
        intro b hb
        have hb2 := hall b hb
        unfold keyLE at hb2
        rw [hka] at hb2
        simpa using hb2
      have h1 : t.filter (fun x => !sortKey x) = [] := by
        rw [List.filter_eq_nil_iff]
        intro b hb
        simp [htrue b hb]
      have h2 : t.filter (fun x => sortKey x) = t := by
        rw [List.filter_eq_self]
        intro b hb
        simp [htrue b hb]
      simp [List.filter_cons, hka, h1, h2]

/-- The ranking sort, in closed form: the rows without a website, in
input order, followed by the rows with one, in input order. -/
theorem rank_places_eq (l : List NormalizedPlace) :
    rank_places l = l.filter (fun x => !sortKey x) ++ l.filter (fun x => sortKey x) := by
  have h1 : (rank_places l).filter (fun x => !sortKey x) = l.filter (fun x => !sortKey x) :=
    rank_filter_eq (fun x => !sortKey x) false (fun x hx => by simpa using hx) l
  have h2 : (rank_places l).filter (fun x => sortKey x) = l.filter (fun x => sortKey x) :=
    rank_filter_eq (fun x => sortKey x) true (fun x hx => hx) l
  have hs : (rank_places l).Pairwise (fun a b : NormalizedPlace => keyLE a b = true) :=
    List.sorted_mergeSort keyLE_trans keyLE_total l
  rw [pairwise_partition (rank_places l) hs, h1, h2]

/-- Ranking never changes the number of rows. -/
theorem rank_places_length (l : List NormalizedPlace) :
    (rank_places l).length = l.length :=
  (List.mergeSort_perm l keyLE).length_eq

/-- The full pipeline preserves the input count. -/
theorem normalize_and_rank_length (places : List RawPlace) :
    (normalize_and_rank places).length = places.length := by
  unfold normalize_and_rank
  rw [rank_places_length]
  simp [process_places]

/-- Per-row website behaviour of the normalizer, used by claim C1. -/
theorem process_place_website_spec (pl : RawPlace) :
    ((process_place pl).hasWebsite = "Yes" ↔ ∃ s, pl.websiteUri = some s ∧ s ≠ "") ∧
    (∀ s, pl.websiteUri = some s → s ≠ "" → (process_place pl).website = s) ∧
    (pl.websiteUri = none ∨ pl.websiteUri = some "" →
      (process_place pl).hasWebsite = "No" ∧ (process_place pl).website = "N/A") := by
  cases hw : pl.websiteUri with
  | none =>
      refine ⟨by simp [process_place, has_website, hw], ?_, ?_⟩
      · intro s hs
        exact absurd hs (by simp)
      · intro _
        simp [process_place, has_website, hw]
  | some s =>
      by_cases hs : s = ""
      · subst hs
        refine ⟨by simp [process_place, has_website, hw], ?_, ?_⟩
        · intro s2 hs2 hne
          exact absurd (Option.some.inj hs2).symm hne
        · intro _
          simp [process_place, has_website, hw]
      · refine ⟨by simp [process_place, has_website, hw, hs], ?_, ?_⟩
        · intro s2 hs2 _
          obtain rfl : s = s2 := Option.some.inj hs2
          simp [process_place, has_website, hw, hs]
        · intro hcontra
          rcases hcontra with h | h
          · exact absurd h (by simp)
          · exact absurd (Option.some.inj h) hs

/-- Claim C1: for every raw record in the input sequence, the
normalizer marks `Has Website` as `"Yes"` iff `websiteUri` is present
and non-empty; when present the output `Website` equals that URI
exactly, and otherwise (absent or empty) `Has Website` is `"No"` and
`Website` is the literal `"N/A"`. -/
theorem claim_C1 (places : List RawPlace) (i : Nat)
    (hi : i < places.length) (hi2 : i < (process_places places).length) :
    (((process_places places).get ⟨i, hi2⟩).hasWebsite = "Yes" ↔
      ∃ s, (places.get ⟨i, hi⟩).websiteUri = some s ∧ s ≠ "") ∧
    (∀ s, (places.get ⟨i, hi⟩).websiteUri = some s → s ≠ "" →
      ((process_places places).get ⟨i, hi2⟩).website = s) ∧
    ((places.get ⟨i, hi⟩).websiteUri = none ∨ (places.get ⟨i, hi⟩).websiteUri = some "" →
      ((process_places places).get ⟨i, hi2⟩).hasWebsite = "No" ∧
      ((process_places places).get ⟨i, hi2⟩).website = "N/A") := by
  have hmap : (process_places places).get ⟨i, hi2⟩ = process_place (places.get ⟨i, hi⟩) := by
    simp [process_places]
  rw [hmap]
  exact process_place_website_spec (places.get ⟨i, hi⟩)

/-- The witness list for claim C1 is non-empty before and after
normalization. -/
theorem wPlacesB_len : 0 < wPlacesB.length := by decide

/-- The processed witness list for claim C1 is non-empty. -/
theorem wProcB_len : 0 < (process_places wPlacesB).length := by decide

/-- Witness for claim C1 at the concrete list `wPlacesB`, index 0. -/
theorem claim_C1_witness :
    (0 < wPlacesB.length ∧ 0 < (process_places wPlacesB).length) ∧
    ((process_places wPlacesB).get ⟨0, wProcB_len⟩).hasWebsite = "Yes" :=
  ⟨⟨wPlacesB_len, wProcB_len⟩,
    ((claim_C1 wPlacesB 0 wPlacesB_len wProcB_len).1).mpr
      ⟨"http://x.com", rfl, by decide⟩⟩

/-- Claim C2: in the ranked output, no row with a website ever comes
before a row without one: for positions i < j it is never the case
that row i has `Has Website = "Yes"` while row j has `"No"`. -/
theorem claim_C2 (places : List RawPlace) (i j : Nat) (hij : i < j)
    (hi : i < (normalize_and_rank places).length)
    (hj : j < (normalize_and_rank places).length) :
    ¬ (((normalize_and_rank places).get ⟨i, hi⟩).hasWebsite = "Yes" ∧
       ((normalize_and_rank places).get ⟨j, hj⟩).hasWebsite = "No") := by
  rintro ⟨hYes, hNo⟩
  have hs : (normalize_and_rank places).Pairwise
      (fun a b : NormalizedPlace => keyLE a b = true) :=
    List.sorted_mergeSort keyLE_trans keyLE_total (process_places places)
  have hR := List.pairwise_iff_getElem.mp hs i j hi hj hij
  rw [List.get_eq_getElem] at hYes hNo
  simp only [keyLE, sortKey, hYes, hNo] at hR
  exact absurd hR (by decide)

/-- The ranked witness list has at least two rows. -/
theorem wRankB_len : 1 < (normalize_and_rank wPlacesB).length := by
  rw [normalize_and_rank_length]
  decide

/-- Witness for claim C2 at the concrete list `wPlacesB`,
positions 0 < 1. -/
theorem claim_C2_witness :
    ((0 : Nat) < 1 ∧ 1 < (normalize_and_rank wPlacesB).length) ∧
    ¬ (((normalize_and_rank wPlacesB).get ⟨0, Nat.lt_trans Nat.zero_lt_one wRankB_len⟩).hasWebsite = "Yes" ∧
       ((normalize_and_rank wPlacesB).get ⟨1, wRankB_len⟩).hasWebsite = "No") :=
  ⟨⟨Nat.zero_lt_one, wRankB_len⟩,
    claim_C2 wPlacesB 0 1 Nat.zero_lt_one
      (Nat.lt_trans Nat.zero_lt_one wRankB_len) wRankB_len⟩

/-- Claim C3: the ranking sort is stable — rows with equal
`Has Website` value keep the relative order they had coming out of the
normalizer (which itself preserves input order) — and re-running the
pipeline on the same raw input yields the identical sequence. -/
theorem claim_C3 (places : List RawPlace) :
    ((normalize_and_rank places).filter (fun p => p.hasWebsite == "Yes") =
      (process_places places).filter (fun p => p.hasWebsite == "Yes")) ∧
    ((normalize_and_rank places).filter (fun p => p.hasWebsite == "No") =
      (process_places places).filter (fun p => p.hasWebsite == "No")) ∧
    normalize_and_rank places = normalize_and_rank places := by
  refine ⟨?_, ?_, rfl⟩
  · exact rank_filter_eq (fun p => p.hasWebsite == "Yes") true
      (fun x hx => hx) (process_places places)
  · refine rank_filter_eq (fun p => p.hasWebsite == "No") false ?_ (process_places places)
    intro x hx
    have hx2 : x.hasWebsite = "No" := by simpa using hx
    unfold sortKey
    rw [hx2]
    decide

/-- Claim C4: normalization produces exactly one row per raw record
and ranking drops nothing, so the pipeline preserves the count. -/
theorem claim_C4 (places : List RawPlace) :
    (normalize_and_rank places).length = places.length ∧
    (process_places places).length = places.length :=
  ⟨normalize_and_rank_length places, by simp [process_places]⟩

/-- Claim C5: every missing optional field resolves to its literal
default — name to `"Unknown"`, address to `"N/A"`, price level to
`"N/A"` — every field of the normalized row is always present by
construction, and the Scenario A input yields exactly the Scenario A
row. -/
theorem claim_C5 (pl : RawPlace) :
    (pl.displayName = none → (process_place pl).name = "Unknown") ∧
    (pl.formattedAddress = none → (process_place pl).address = "N/A") ∧
    (pl.priceLevel = none → (process_place pl).priceLevel = "N/A") ∧
    normalize_and_rank [scenarioA_raw] = [scenarioA_row] := by
  refine ⟨?_, ?_, ?_, ?_⟩
  · intro h
    simp [process_place, h]
  · intro h
    simp [process_place, h]
  · intro h
    simp [process_place, h]
  · unfold normalize_and_rank
    rw [rank_places_eq]
    decide

/-- Witness for claim C5 at the fully blank raw place. -/
theorem claim_C5_witness :
    blankRaw.displayName = none ∧ (process_place blankRaw).name = "Unknown" :=
  ⟨rfl, (claim_C5 blankRaw).1 rfl⟩

/-- Counterexample to claim C6 as stated: status 204 lies in the HTTP
success range, yet `search_places` takes the error branch (the source
tests `status_code == 200` exactly), returning no result and an error. -/
theorem claim_C6_counterexample :
    (200 ≤ resp204.status_code ∧ resp204.status_code < 300) ∧
    (search_places (.response resp204)).1 = none ∧
    (search_places (.response resp204)).2 ≠ none := by
  decide

/-- Claim C6 (amended): for every response with HTTP status exactly
200 — the only status the code treats as success — the executor
returns the parsed structure with no error; the parsed structure may
lack the `places` key or hold an empty list and is still a success. -/
theorem claim_C6 (r : HttpResponse) (h : r.status_code = 200) :
    search_places (.response r) = (some r.json, none) := by
  simp [search_places, h]

/-- Witness for amended claim C6: a 200 response whose body lacks the
`places` key is still a success. -/
theorem claim_C6_witness :
    resp200.status_code = 200 ∧
    search_places (.response resp200) = (some resp200.json, none) :=
  ⟨rfl, claim_C6 resp200 rfl⟩

/-- Claim C7: every response with a non-success status yields the
request-failed error carrying both the status code and the raw body,
and every transport fault yields the transport error carrying its
message; `search_places` returns these as values (single attempt, no
retry, nothing raised past the caller). -/
theorem claim_C7 (r : HttpResponse) (msg : String)
    (h : ¬ (200 ≤ r.status_code ∧ r.status_code < 300)) :
    search_places (.response r) =
      (none, some (renderSearchError (.RequestFailed r.status_code r.text))) ∧
    search_places (.requestException msg) =
      (none, some (renderSearchError (.TransportError msg))) := by
  have h200 : r.status_code ≠ 200 := by
    intro he
    exact h (by constructor <;> omega)
  constructor
  · simp [search_places, h200]
  · simp [search_places]

/-- Witness for claim C7 at Scenario D: status 403 with body
`"forbidden"` yields the request-failed error with exactly that
status code and body. -/
theorem claim_C7_witness :
    (¬ (200 ≤ resp403.status_code ∧ resp403.status_code < 300)) ∧
    search_places (.response resp403) =
      (none, some (renderSearchError (.RequestFailed 403 "forbidden"))) :=
  ⟨by decide, (claim_C7 resp403 "timed out" (by decide)).1⟩

/-- Claim C8: an empty query string (and likewise an empty key) is
rejected by the caller-side validation before any network call: the
handler produces a validation message and never invokes the query
executor, so no search error is produced. -/
theorem claim_C8 (q k : String) (h : q = "" ∨ k = "") :
    (search_clicked_handler q k = .validationError "Please enter a search query" ∨
     search_clicked_handler q k =
       .validationError "Please provide your Google Places API key in the settings above") ∧
    ∀ q2 k2, search_clicked_handler q k ≠ .invokeSearch q2 k2 := by
  by_cases hq : q = ""
  · subst hq
    refine ⟨Or.inl (by simp [search_clicked_handler]), ?_⟩
    intro q2 k2
    simp [search_clicked_handler]
  · rcases h with h | h
    · exact absurd h hq
    · subst h
      refine ⟨Or.inr (by simp [search_clicked_handler, hq]), ?_⟩
      intro q2 k2
      simp [search_clicked_handler, hq]

/-- Witness for claim C8: the empty query with a non-empty key is
rejected with the query validation message. -/
theorem claim_C8_witness :
    ("" = "" ∨ "key" = "") ∧
    (search_clicked_handler "" "key" = .validationError "Please enter a search query" ∨
     search_clicked_handler "" "key" =
       .validationError "Please provide your Google Places API key in the settings above") :=
  ⟨Or.inl rfl, (claim_C8 "" "key" (Or.inl rfl)).1⟩

/-- Claim C9: the normalize-and-rank pipeline is a pure deterministic
function of its input sequence — equal inputs give equal outputs, for
the ranked output and for the intermediate normalized rows alike. -/
theorem claim_C9 (l1 l2 : List RawPlace) (h : l1 = l2) :
    normalize_and_rank l1 = normalize_and_rank l2 ∧
    process_places l1 = process_places l2 := by
  rw [h]
  exact ⟨rfl, rfl⟩

/-- Witness for claim C9 at the concrete list `wPlacesB`. -/
theorem claim_C9_witness :
    wPlacesB = wPlacesB ∧
    (normalize_and_rank wPlacesB = normalize_and_rank wPlacesB ∧
     process_places wPlacesB = process_places wPlacesB) :=
  ⟨rfl, claim_C9 wPlacesB wPlacesB rfl⟩

/-- Claim C10: `search_places` always returns a pair with exactly one
meaningful component — a result with no error, or no result with an
error — never both and never neither. -/
theorem claim_C10 (outcome : HttpOutcome) :
    ((search_places outcome).1.isSome ∧ (search_places outcome).2 = none) ∨
    ((search_places outcome).1 = none ∧ (search_places outcome).2.isSome) := by
  cases outcome with
  | response r =>
      by_cases h : r.status_code = 200
      · left
        simp [search_places, h]
      · right
        simp [search_places, h]
  | requestException e =>
      right
      simp [search_places]
